import Mathlib

/-!
Shallow embedding of the klink-server market-data service: the
`ItickWebSocketClient` connection lifecycle (status, reconnect backoff,
heartbeat timers, intentional-disconnect flag) and the `ItickService`
orchestrator (running flag, subscription set, bounded kline/quote history
buffers, significant-price-change detection).  Each definition mirrors the
corresponding TypeScript member; numbers that are JS floats are embedded as
exact rationals, timer handles as Booleans (armed / cleared), and event
emission as explicit event lists returned by handlers.
-/

namespace Klink

/-- Connection status values, from the `ConnectionStatus` enum in `types/itick.ts`. -/
inductive ConnStatus
  | disconnected
  | connecting
  | connected
  | authenticated
  | subscribed
  | error
deriving DecidableEq, Repr

/-- Events emitted by `ItickWebSocketClient` via `super.emit`. -/
inductive ClientEvent
  | disconnected
  | reconnected
  | authenticated
  | authFailed
  | subscribed
  | subscribeFailed
  | maxReconnectAttemptsReached
deriving DecidableEq, Repr

/-- State of one `ItickWebSocketClient` instance: the fields of the class that
the lifecycle logic reads and writes.  Timer handles (`heartbeatInterval`,
`heartbeatTimeout`, `reconnectInterval`) are embedded as Booleans recording
whether the handle is currently armed (`setInterval`/`setTimeout` done and not
yet cleared). -/
structure Client where
  status : ConnStatus
  heartbeatInterval : Bool
  heartbeatTimeout : Bool
  reconnectTimer : Bool
  reconnectAttempts : Nat
  maxReconnectAttempts : Nat
  reconnectDelay : Nat
  maxReconnectDelay : Nat
  shouldReconnect : Bool
deriving DecidableEq, Repr

/-- Field initializers of `ItickWebSocketClient`: disconnected, no timers armed,
0 attempts, max 5 attempts, base delay 1000 ms, delay cap 30000 ms,
`shouldReconnect = true`. -/
def Client.init : Client :=
  { status := .disconnected
    heartbeatInterval := false
    heartbeatTimeout := false
    reconnectTimer := false
    reconnectAttempts := 0
    maxReconnectAttempts := 5
    reconnectDelay := 1000
    maxReconnectDelay := 30000
    shouldReconnect := true }

/-- `stopHeartbeat()`: clears the heartbeat interval and the pending-pong
timeout, when armed. -/
def stopHeartbeat (c : Client) : Client :=
  { c with heartbeatInterval := false, heartbeatTimeout := false }

/-- `scheduleReconnect()`: increments the attempt counter, computes the
exponential-backoff delay `min(reconnectDelay * 2^(attempts-1), maxReconnectDelay)`
from the counter after incrementing, and arms the reconnect timer.  Returns the
new state together with the computed delay passed to `setTimeout`. -/
def scheduleReconnect (c : Client) : Client × Nat :=
  let attempts := c.reconnectAttempts + 1
  let delay := min (c.reconnectDelay * 2 ^ (attempts - 1)) c.maxReconnectDelay
  ({ c with reconnectAttempts := attempts, reconnectTimer := true }, delay)

/-- The backoff formula of the specification, as a pure function of the attempt
number about to be made. -/
def reconnectDelayFor (base cap n : Nat) : Nat :=
  min (base * 2 ^ (n - 1)) cap

/-- The `ws.on close` handler: sets status to disconnected, tears down the
heartbeat, emits `disconnected`, and — only when `shouldReconnect` holds and
the attempt counter is below the maximum — calls `scheduleReconnect` once.
Returns the new state, the emitted events, and how many reconnect attempts
were scheduled during the handler. -/
def onClose (c : Client) : Client × List ClientEvent × Nat :=
  let c1 := stopHeartbeat { c with status := .disconnected }
  if c1.shouldReconnect = true ∧ c1.reconnectAttempts < c1.maxReconnectAttempts then
    ((scheduleReconnect c1).1, [.disconnected], 1)
  else
    (c1, [.disconnected], 0)

/-- The `ws.on open` handler: records the connected status, emits `reconnected`
when the open follows at least one reconnect attempt, and resets the attempt
counter to 0. -/
def onOpen (c : Client) : Client × List ClientEvent :=
  let isReconnect := 0 < c.reconnectAttempts
  ({ c with status := .connected, reconnectAttempts := 0 },
   if isReconnect then [.reconnected] else [])

/-- `handleAuthResponse(response)`: on `msg = "authenticated"` sets the status
to authenticated and emits `authenticated`; on any other message sets the
status to error and emits `authFailed`. -/
def handleAuthResponse (c : Client) (msg : String) : Client × List ClientEvent :=
  if msg = "authenticated" then
    ({ c with status := .authenticated }, [.authenticated])
  else
    ({ c with status := .error }, [.authFailed])

/-- `disconnect()`: sets `shouldReconnect := false`, stops the heartbeat,
clears the reconnect timer with `clearTimeout`, closes the socket, and records
the disconnected status. -/
def disconnect (c : Client) : Client :=
  let c1 := stopHeartbeat { c with shouldReconnect := false }
  { c1 with reconnectTimer := false, status := .disconnected }

/-- A scheduled reconnect can fire only while its `setTimeout` handle is still
armed; `clearTimeout` disarms it. -/
def canFireReconnect (c : Client) : Prop :=
  c.reconnectTimer = true

/-- The outbound subscribe frame `{ac, params, types}` from `types/itick.ts`. -/
structure SubscribeMessage where
  ac : String
  params : String
  types : String
deriving DecidableEq, Repr

/-- Construction of the subscribe frame in `ItickWebSocketClient.subscribe`:
`{ac: "subscribe", params: symbols.join("$"), types: "quote"}`. -/
def buildSubscribeMessage (symbols : List String) : SubscribeMessage :=
  { ac := "subscribe"
    params := String.intercalate "$" symbols
    types := "quote" }

/-- `ItickWebSocketClient.subscribe(symbols)`: when the status is not
`AUTHENTICATED` it logs an error and returns without sending; otherwise it
sends the subscribe frame.  The result is the frame handed to `sendMessage`,
or `none` when nothing was sent. -/
def clientSubscribe (c : Client) (symbols : List String) : Option SubscribeMessage :=
  if c.status ≠ ConnStatus.authenticated then
    none
  else
    some (buildSubscribeMessage symbols)

end Klink

namespace Klink

/-- The `k` payload of a kline frame: turnover, close, timestamp, volume,
high, low, open. -/
structure KlineBar where
  tu : ℚ
  c : ℚ
  t : ℚ
  v : ℚ
  h : ℚ
  l : ℚ
  o : ℚ
deriving DecidableEq, Repr

/-- A kline event: symbol, bar period, bar payload (from `types/itick.ts`). -/
structure KlineData where
  s : String
  t : ℚ
  k : KlineBar
deriving DecidableEq, Repr

/-- A quote event: symbol, last price, open/high/low, timestamp, volume,
turnover, seconds timestamp (from `types/itick.ts`). -/
structure QuoteData where
  s : String
  ld : ℚ
  o : ℚ
  h : ℚ
  l : ℚ
  t : ℚ
  v : ℚ
  tu : ℚ
  ts : ℚ
deriving DecidableEq, Repr

/-- Events emitted by `ItickService` that the claims observe. -/
inductive ServiceEvent
  | started
  | stopped
deriving DecidableEq, Repr

/-- State of one `ItickService` instance: running flag, subscription set,
both history buffers, the buffer capacity, and the owned client. -/
structure Service where
  isRunning : Bool
  subscribedSymbols : List String
  dataBuffer : List KlineData
  quoteBuffer : List QuoteData
  maxBufferSize : Nat
  client : Client
deriving DecidableEq, Repr

/-- Field initializers of `ItickService`: not running, empty subscription set,
empty buffers, capacity 1000, freshly constructed client. -/
def Service.init : Service :=
  { isRunning := false
    subscribedSymbols := []
    dataBuffer := []
    quoteBuffer := []
    maxBufferSize := 1000
    client := Client.init }

/-- The shared shape of `addToBuffer` and `addToQuoteBuffer`: `push(data)`,
then if the length exceeds `maxBufferSize`, `shift()` the oldest entry. -/
def pushBounded {α : Type} (maxBufferSize : Nat) (buf : List α) (data : α) : List α :=
  let b := buf ++ [data]
  if maxBufferSize < b.length then b.tail else b

/-- `ItickService.addToBuffer(data)`: bounded append on the kline buffer. -/
def addToBuffer (svc : Service) (data : KlineData) : Service :=
  { svc with dataBuffer := pushBounded svc.maxBufferSize svc.dataBuffer data }

/-- `ItickService.addToQuoteBuffer(data)`: bounded append on the quote buffer. -/
def addToQuoteBuffer (svc : Service) (data : QuoteData) : Service :=
  { svc with quoteBuffer := pushBounded svc.maxBufferSize svc.quoteBuffer data }

/-- Payload of the `significantPriceChange` event. -/
structure SignificantPriceChange where
  symbol : String
  previousPrice : ℚ
  currentPrice : ℚ
  change : ℚ
  changePercent : ℚ
deriving DecidableEq, Repr

/-- `ItickService.processQuoteData(data)`: reads the quote buffer (to which
`data` was already appended by `handleQuoteData`); when the buffer holds at
least two entries and the second-to-last entry has the same symbol, computes
the price change and its percentage against the previous last price, and emits
`significantPriceChange` exactly when the absolute percentage exceeds 0.1. -/
def processQuoteData (quoteBuffer : List QuoteData) (data : QuoteData) :
    Option SignificantPriceChange :=
  if h : 2 ≤ quoteBuffer.length then
    let previousData := quoteBuffer.get ⟨quoteBuffer.length - 2, by omega⟩
    if previousData.s = data.s then
      let priceChange := data.ld - previousData.ld
      let priceChangePercent := priceChange / previousData.ld * 100
      if (1 : ℚ) / 10 < |priceChangePercent| then
        some { symbol := data.s
               previousPrice := previousData.ld
               currentPrice := data.ld
               change := priceChange
               changePercent := priceChangePercent }
      else none
    else none
  else none

/-- `ItickService.processKlineData(data)`: same detection on the kline buffer,
comparing close prices of the last two entries. -/
def processKlineData (dataBuffer : List KlineData) (data : KlineData) :
    Option SignificantPriceChange :=
  if h : 2 ≤ dataBuffer.length then
    let previousData := dataBuffer.get ⟨dataBuffer.length - 2, by omega⟩
    if previousData.s = data.s then
      let priceChange := data.k.c - previousData.k.c
      let priceChangePercent := priceChange / previousData.k.c * 100
      if (1 : ℚ) / 10 < |priceChangePercent| then
        some { symbol := data.s
               previousPrice := previousData.k.c
               currentPrice := data.k.c
               change := priceChange
               changePercent := priceChangePercent }
      else none
    else none
  else none

/-- `ItickService.handleQuoteData(data)`: appends to the quote buffer, then
runs `processQuoteData` on the updated buffer.  The returned option is the
`significantPriceChange` emission, if any. -/
def handleQuoteStep (svc : Service) (data : QuoteData) :
    Service × Option SignificantPriceChange :=
  let svc1 := addToQuoteBuffer svc data
  (svc1, processQuoteData svc1.quoteBuffer data)

/-- `ItickService.handleKlineData(data)`: appends to the kline buffer, then
runs `processKlineData` on the updated buffer. -/
def handleKlineStep (svc : Service) (data : KlineData) :
    Service × Option SignificantPriceChange :=
  let svc1 := addToBuffer svc data
  (svc1, processKlineData svc1.dataBuffer data)

/-- Failure modes of `ItickService.start` past the running guard: the awaited
connect / authentication steps may reject. -/
inductive StartError
  | connectFailed
  | authTimeout
  | authFailed
deriving DecidableEq, Repr

/-- `ItickService.start(symbols)`: when already running it logs a warning and
returns normally; otherwise it sets the running flag and the subscription set
and awaits connect / authentication / subscribe, whose combined outcome is the
external `io` argument — on rejection the running flag is reset and the error
is rethrown. -/
def start (svc : Service) (symbols : List String) (io : Except StartError Unit) :
    Service × Except StartError Unit :=
  if svc.isRunning then
    (svc, .ok ())
  else
    match io with
    | .ok () =>
        ({ svc with isRunning := true, subscribedSymbols := symbols }, .ok ())
    | .error e =>
        ({ svc with isRunning := false, subscribedSymbols := symbols }, .error e)

/-- `ItickService.stop()`: when not running it logs a warning and returns with
no event; otherwise it clears the running flag, disconnects the client
(intentional close), empties both buffers, and emits `stopped`. -/
def stop (svc : Service) : Service × List ServiceEvent :=
  if svc.isRunning then
    ({ svc with
        isRunning := false
        client := disconnect svc.client
        dataBuffer := []
        quoteBuffer := [] },
     [.stopped])
  else
    (svc, [])

/-- `ItickService.resubscribe(symbols)`: when not running it logs a warning and
returns; otherwise it replaces the subscription set and calls
`client.subscribe(symbols)`.  The returned option is the subscribe frame the
client actually sent, if any. -/
def resubscribe (svc : Service) (symbols : List String) :
    Service × Option SubscribeMessage :=
  if svc.isRunning then
    ({ svc with subscribedSymbols := symbols }, clientSubscribe svc.client symbols)
  else
    (svc, none)

/-- Heap model for the JS array aliasing in `getSubscribedSymbols`: arrays are
identified by references into a store, `next` is the next fresh reference. -/
structure SymbolStore where
  arrays : Nat → List String
  next : Nat

/-- `ItickService.getSubscribedSymbols()`: `return [...this.subscribedSymbols]`
— allocates a fresh array holding a copy of the contents of the internal
subscription array and returns its reference. -/
def getSubscribedSymbols (st : SymbolStore) (internalRef : Nat) : SymbolStore × Nat :=
  ({ arrays := fun r => if r = st.next then st.arrays internalRef else st.arrays r
     next := st.next + 1 },
   st.next)

/-- Mutation of the array behind `ref` by the caller. -/
def writeArray (st : SymbolStore) (ref : Nat) (v : List String) : SymbolStore :=
  { st with arrays := fun r => if r = ref then v else st.arrays r }

/-! ### Helper lemmas about the bounded buffers -/

/-- One bounded append on a buffer within capacity drops exactly the overflow
from the head. -/
lemma pushBounded_eq_drop {α : Type} (cap : Nat) (buf : List α) (d : α)
    (h : buf.length ≤ cap) :
    pushBounded cap buf d = (buf ++ [d]).drop (buf.length + 1 - cap) := by
  unfold pushBounded
  by_cases hlt : cap < (buf ++ [d]).length
  · have hone : buf.length + 1 - cap = 1 := by
      simp only [List.length_append, List.length_cons, List.length_nil] at hlt
      omega
    rw [if_pos hlt, hone, List.drop_one]
  · have hzero : buf.length + 1 - cap = 0 := by
      simp only [List.length_append, List.length_cons, List.length_nil] at hlt
      omega
    rw [if_neg hlt, hzero, List.drop_zero]

/-- Folding bounded appends over a buffer within capacity keeps exactly the
newest `cap` entries, in order. -/
lemma foldl_pushBounded_eq_drop {α : Type} (cap : Nat) (hcap : 0 < cap) :
    ∀ (xs buf : List α), buf.length ≤ cap →
      xs.foldl (pushBounded cap) buf = (buf ++ xs).drop (buf.length + xs.length - cap)
  | [], buf, h => by
      simp only [List.foldl_nil, List.append_nil, List.length_nil, Nat.add_zero,
        Nat.sub_eq_zero_of_le h, List.drop_zero]
  | d :: rest, buf, h => by
      rw [List.foldl_cons, pushBounded_eq_drop cap buf d h]
      have hjle : buf.length + 1 - cap ≤ (buf ++ [d]).length := by
        simp only [List.length_append, List.length_cons, List.length_nil]
        omega
      have hlen2 : ((buf ++ [d]).drop (buf.length + 1 - cap)).length ≤ cap := by
        simp only [List.length_drop, List.length_append, List.length_cons, List.length_nil]
        omega
      rw [foldl_pushBounded_eq_drop cap hcap rest _ hlen2]
      rw [← List.drop_append_of_le_length hjle, List.drop_drop]
      have hassoc : (buf ++ [d]) ++ rest = buf ++ d :: rest := by simp
      rw [hassoc]
      congr 1
      simp only [List.length_drop, List.length_append, List.length_cons, List.length_nil]
      omega

/-- `addToBuffer` folded over a kline sequence only rewrites the kline
buffer, through `pushBounded` at the configured capacity. -/
lemma foldl_addToBuffer (xs : List KlineData) (svc : Service) :
    xs.foldl addToBuffer svc =
      { svc with dataBuffer := xs.foldl (pushBounded svc.maxBufferSize) svc.dataBuffer } := by
  induction xs generalizing svc with
  | nil => simp
  | cons d rest ih =>
      rw [List.foldl_cons, List.foldl_cons, ih]
      rfl

/-- `addToQuoteBuffer` folded over a quote sequence only rewrites the quote
buffer, through `pushBounded` at the configured capacity. -/
lemma foldl_addToQuoteBuffer (ys : List QuoteData) (svc : Service) :
    ys.foldl addToQuoteBuffer svc =
      { svc with quoteBuffer := ys.foldl (pushBounded svc.maxBufferSize) svc.quoteBuffer } := by
  induction ys generalizing svc with
  | nil => simp
  | cons d rest ih =>
      rw [List.foldl_cons, List.foldl_cons, ih]
      rfl

/-! ### Concrete fixtures used by witnesses and counterexamples -/

/-- A client that has completed the subscribe handshake. -/
def subscribedClient : Client := { Client.init with status := .subscribed }

/-- A client that has authenticated but not yet subscribed. -/
def authedClient : Client := { Client.init with status := .authenticated }

/-- A service whose `start` has begun (running flag set). -/
def runningService : Service := { Service.init with isRunning := true }

/-- A running service in the steady state: client subscribed. -/
def runningSubscribedService : Service := { runningService with client := subscribedClient }

/-- A running service whose client is still only authenticated. -/
def runningAuthedService : Service := { runningService with client := authedClient }

/-- A stopped service whose client happens to be subscribed. -/
def stoppedSubscribedService : Service := { Service.init with client := subscribedClient }

/-- A quote event for `EURUSD$GB` carrying only a last price. -/
def eurQuote (p : ℚ) : QuoteData :=
  { s := "EURUSD$GB", ld := p, o := 0, h := 0, l := 0, t := 0, v := 0, tu := 0, ts := 0 }

/-- Reading a buffer at index `length - 2` when the last two entries are known
picks the second-to-last entry. -/
lemma get_penultimate {α : Type} (front : List α) (a b : α)
    (h : (front ++ [a, b]).length - 2 < (front ++ [a, b]).length) :
    (front ++ [a, b]).get ⟨(front ++ [a, b]).length - 2, h⟩ = a := by
  have hidx : (front ++ [a, b]).length - 2 = front.length := by simp
  have h2 : front.length < (front ++ [a, b]).length := by simp
  have hfin : (⟨(front ++ [a, b]).length - 2, h⟩ : Fin (front ++ [a, b]).length)
      = ⟨front.length, h2⟩ := Fin.ext hidx
  rw [hfin]
  show (front ++ [a, b])[front.length] = a
  rw [List.getElem_append_right (Nat.le_refl front.length)]
  simp

/-- `processQuoteData` on a buffer whose last two entries are `prev, cur`
compares exactly those two prices. -/
lemma processQuoteData_last_two (front : List QuoteData) (prev cur : QuoteData) :
    processQuoteData (front ++ [prev, cur]) cur =
      if prev.s = cur.s then
        if (1 : ℚ) / 10 < |(cur.ld - prev.ld) / prev.ld * 100| then
          some { symbol := cur.s, previousPrice := prev.ld, currentPrice := cur.ld,
                 change := cur.ld - prev.ld,
                 changePercent := (cur.ld - prev.ld) / prev.ld * 100 }
        else none
      else none := by
  have hlen : 2 ≤ (front ++ [prev, cur]).length := by simp
  unfold processQuoteData
  rw [dif_pos hlen]
  simp only [get_penultimate]

/-- `processKlineData` on a buffer whose last two entries are `prev, cur`
compares exactly those two close prices. -/
lemma processKlineData_last_two (front : List KlineData) (prev cur : KlineData) :
    processKlineData (front ++ [prev, cur]) cur =
      if prev.s = cur.s then
        if (1 : ℚ) / 10 < |(cur.k.c - prev.k.c) / prev.k.c * 100| then
          some { symbol := cur.s, previousPrice := prev.k.c, currentPrice := cur.k.c,
                 change := cur.k.c - prev.k.c,
                 changePercent := (cur.k.c - prev.k.c) / prev.k.c * 100 }
        else none
      else none := by
  have hlen : 2 ≤ (front ++ [prev, cur]).length := by simp
  unfold processKlineData
  rw [dif_pos hlen]
  simp only [get_penultimate]

/-- A bounded append always leaves the new entry at the tail (capacity at
least 1). -/
lemma pushBounded_ends {α : Type} (cap : Nat) (hcap : 1 ≤ cap) (buf : List α) (d : α) :
    ∃ front, pushBounded cap buf d = front ++ [d] := by
  unfold pushBounded
  by_cases hlt : cap < (buf ++ [d]).length
  · rw [if_pos hlt]
    cases buf with
    | nil =>
        exfalso
        simp only [List.nil_append, List.length_cons, List.length_nil] at hlt
        omega
    | cons x xs => exact ⟨xs, by simp⟩
  · rw [if_neg hlt]
    exact ⟨buf, rfl⟩

/-- Two successive bounded appends leave the two new entries as the last two
(capacity at least 2). -/
lemma pushBounded_ends_two {α : Type} (cap : Nat) (hcap : 2 ≤ cap) (buf : List α) (a b : α) :
    ∃ front, pushBounded cap (pushBounded cap buf a) b = front ++ [a, b] := by
  obtain ⟨f1, h1⟩ := pushBounded_ends cap (by omega) buf a
  rw [h1]
  unfold pushBounded
  by_cases hlt : cap < ((f1 ++ [a]) ++ [b]).length
  · rw [if_pos hlt]
    cases f1 with
    | nil =>
        exfalso
        simp only [List.nil_append, List.length_append, List.length_cons,
          List.length_nil] at hlt
        omega
    | cons x xs => exact ⟨xs, by simp⟩
  · rw [if_neg hlt]
    exact ⟨f1, by simp⟩

/-- `stop` on a non-running service is the identity and emits nothing. -/
lemma stop_not_running (svc : Service) (h : svc.isRunning = false) :
    stop svc = (svc, []) := by
  simp [stop, h]

/-- After any `stop`, the running flag is down. -/
lemma stop_fst_isRunning (svc : Service) : (stop svc).1.isRunning = false := by
  by_cases h : svc.isRunning <;> simp [stop, h]

end Klink

namespace Klink

/-! ### Claims -/

/-- C2: for every sequence of appends to the kline (respectively quote)
history buffer starting from an empty buffer with the configured capacity
1000, the buffer length never exceeds 1000 (every prefix of a sequence is
itself a sequence, so this bounds every intermediate state), and the buffer
holds exactly the newest 1000 entries in insertion order: after `1000 + k`
appends, exactly the last 1000 entries, i.e. the input with its first `k`
entries dropped. -/
theorem C2_buffer_capacity_fifo :
    ∀ (xs : List KlineData) (ys : List QuoteData) (svc : Service),
      svc.maxBufferSize = 1000 → svc.dataBuffer = [] → svc.quoteBuffer = [] →
      ((xs.foldl addToBuffer svc).dataBuffer.length ≤ 1000 ∧
        (xs.foldl addToBuffer svc).dataBuffer = xs.drop (xs.length - 1000)) ∧
      ((ys.foldl addToQuoteBuffer svc).quoteBuffer.length ≤ 1000 ∧
        (ys.foldl addToQuoteBuffer svc).quoteBuffer = ys.drop (ys.length - 1000)) := by
  intro xs ys svc hcap hdb hqb
  have hx : (xs.foldl addToBuffer svc).dataBuffer = xs.drop (xs.length - 1000) := by
    rw [foldl_addToBuffer, hcap, hdb]
    rw [foldl_pushBounded_eq_drop 1000 (by omega) xs [] (by simp)]
    simp
  have hy : (ys.foldl addToQuoteBuffer svc).quoteBuffer = ys.drop (ys.length - 1000) := by
    rw [foldl_addToQuoteBuffer, hcap, hqb]
    rw [foldl_pushBounded_eq_drop 1000 (by omega) ys [] (by simp)]
    simp
  refine ⟨⟨?_, hx⟩, ⟨?_, hy⟩⟩
  · rw [hx]
    simp only [List.length_drop]
    omega
  · rw [hy]
    simp only [List.length_drop]
    omega

/-- Witness for C2 at a concrete input: 1001 appends of one kline into the
freshly constructed service leave the last 1000 of them. -/
theorem C2_buffer_capacity_fifo_witness :
    Service.init.maxBufferSize = 1000 ∧ Service.init.dataBuffer = [] ∧
    Service.init.quoteBuffer = [] ∧
    ((List.replicate 1001 (⟨"EURUSD$GB", 1, ⟨0, 1, 0, 0, 0, 0, 0⟩⟩ : KlineData)).foldl
        addToBuffer Service.init).dataBuffer =
      (List.replicate 1001 (⟨"EURUSD$GB", 1, ⟨0, 1, 0, 0, 0, 0, 0⟩⟩ : KlineData)).drop
        ((List.replicate 1001 (⟨"EURUSD$GB", 1, ⟨0, 1, 0, 0, 0, 0, 0⟩⟩ : KlineData)).length - 1000) :=
  ⟨rfl, rfl, rfl,
    (C2_buffer_capacity_fifo (List.replicate 1001 ⟨"EURUSD$GB", 1, ⟨0, 1, 0, 0, 0, 0, 0⟩⟩)
      [] Service.init rfl rfl rfl).1.2⟩

/-- C3: every call of `scheduleReconnect` increments the attempt counter and
passes `setTimeout` the delay `min(reconnectDelay * 2^(n-1), maxReconnectDelay)`
computed from the attempt number `n` after the increment; with the configured
base 1000 ms and cap 30000 ms, attempts 1 to 5 get delays 1000, 2000, 4000,
8000, 16000 and attempt 6 is capped at 30000. -/
theorem C3_backoff_delay :
    (∀ c : Client,
        (scheduleReconnect c).1.reconnectAttempts = c.reconnectAttempts + 1 ∧
        (scheduleReconnect c).2 =
          reconnectDelayFor c.reconnectDelay c.maxReconnectDelay (c.reconnectAttempts + 1)) ∧
    (scheduleReconnect Client.init).2 = 1000 ∧
    (scheduleReconnect { Client.init with reconnectAttempts := 1 }).2 = 2000 ∧
    (scheduleReconnect { Client.init with reconnectAttempts := 2 }).2 = 4000 ∧
    (scheduleReconnect { Client.init with reconnectAttempts := 3 }).2 = 8000 ∧
    (scheduleReconnect { Client.init with reconnectAttempts := 4 }).2 = 16000 ∧
    (scheduleReconnect { Client.init with reconnectAttempts := 5 }).2 = 30000 := by
  refine ⟨fun c => ⟨rfl, rfl⟩, ?_, ?_, ?_, ?_, ?_, ?_⟩ <;> decide

/-- C9: the subscribe frame built from a symbol list carries
`ac = "subscribe"`, `types = "quote"`, and `params` equal to the symbols
joined with the `$` separator; in particular
`["EURUSD$GB", "USDJPY$GB"]` yields `params = "EURUSD$GB$USDJPY$GB"`. -/
theorem C9_subscribe_params :
    (buildSubscribeMessage ["EURUSD$GB", "USDJPY$GB"]).params = "EURUSD$GB$USDJPY$GB" ∧
    (buildSubscribeMessage ["EURUSD$GB", "USDJPY$GB"]).ac = "subscribe" ∧
    (buildSubscribeMessage ["EURUSD$GB", "USDJPY$GB"]).types = "quote" ∧
    ∀ symbols : List String,
      (buildSubscribeMessage symbols).params = String.intercalate "$" symbols := by
  exact ⟨rfl, rfl, rfl, fun _ => rfl⟩

/-- C1: from the subscribed state, the transport close handler schedules
exactly one reconnect attempt when the disconnect was not intentional
(`shouldReconnect` still true) and the attempt counter is below the maximum,
and schedules none when the disconnect was intentional; `disconnect()` (the
client step of `stop()`) leaves the reconnect timer, heartbeat interval, and
heartbeat timeout all cleared, so no previously armed reconnect can fire after
it returns; at the service level, `stop()` on a running service leaves the
owned client in the same cancelled-timers state. -/
theorem C1_close_schedules_once_and_stop_cancels :
    (∀ c : Client, c.status = .subscribed →
        (c.shouldReconnect = true → c.reconnectAttempts < c.maxReconnectAttempts →
          (onClose c).2.2 = 1 ∧ (onClose c).1.reconnectTimer = true ∧
          (onClose c).1.reconnectAttempts = c.reconnectAttempts + 1) ∧
        (c.shouldReconnect = false → (onClose c).2.2 = 0 ∧
          (onClose c).1.reconnectAttempts = c.reconnectAttempts)) ∧
    (∀ c : Client,
        (disconnect c).reconnectTimer = false ∧
        (disconnect c).heartbeatInterval = false ∧
        (disconnect c).heartbeatTimeout = false ∧
        ¬ canFireReconnect (disconnect c)) ∧
    (∀ svc : Service, svc.isRunning = true →
        (stop svc).1.client.reconnectTimer = false ∧
        (stop svc).1.client.heartbeatInterval = false ∧
        (stop svc).1.client.heartbeatTimeout = false ∧
        ¬ canFireReconnect (stop svc).1.client) := by
  refine ⟨?_, ?_, ?_⟩
  · intro c _
    constructor
    · intro hsr hlt
      simp [onClose, stopHeartbeat, scheduleReconnect, hsr, hlt]
    · intro hsr
      simp [onClose, stopHeartbeat, hsr]
  · intro c
    simp [disconnect, stopHeartbeat, canFireReconnect]
  · intro svc h
    simp [stop, h, disconnect, stopHeartbeat, canFireReconnect]

/-- Witness for C1: a concrete subscribed client with armed heartbeat, no
intentional disconnect and 0 of 5 attempts used schedules exactly one
reconnect on close, and a running service's `stop()` clears all client
timers. -/
theorem C1_close_schedules_once_and_stop_cancels_witness :
    ({ Client.init with status := .subscribed, heartbeatInterval := true } : Client).status
        = .subscribed ∧
    ({ Client.init with status := .subscribed, heartbeatInterval := true } : Client).shouldReconnect
        = true ∧
    ({ Client.init with status := .subscribed, heartbeatInterval := true } : Client).reconnectAttempts
        < ({ Client.init with status := .subscribed, heartbeatInterval := true } : Client).maxReconnectAttempts ∧
    (onClose { Client.init with status := .subscribed, heartbeatInterval := true }).2.2 = 1 ∧
    ({ Service.init with isRunning := true } : Service).isRunning = true ∧
    ¬ canFireReconnect (stop { Service.init with isRunning := true }).1.client :=
  ⟨rfl, rfl, by decide,
    ((C1_close_schedules_once_and_stop_cancels.1
        { Client.init with status := .subscribed, heartbeatInterval := true } rfl).1
      rfl (by decide)).1,
    rfl,
    (C1_close_schedules_once_and_stop_cancels.2.2
        { Service.init with isRunning := true } rfl).2.2.2⟩

/-- C4 counterexample: a client mid-reconnect (attempt counter 3, status
connecting) that receives the authentication success message transitions to
authenticated and emits the event, but its reconnect attempt counter stays 3 —
the authentication handler does not reset it to 0 (the reset lives in the
transport open handler). -/
theorem C4_counterexample_auth_does_not_reset_counter :
    (handleAuthResponse { Client.init with status := .connecting, reconnectAttempts := 3 }
        "authenticated").1.status = .authenticated ∧
    (handleAuthResponse { Client.init with status := .connecting, reconnectAttempts := 3 }
        "authenticated").2 = [.authenticated] ∧
    (handleAuthResponse { Client.init with status := .connecting, reconnectAttempts := 3 }
        "authenticated").1.reconnectAttempts = 3 ∧
    ¬ (handleAuthResponse { Client.init with status := .connecting, reconnectAttempts := 3 }
        "authenticated").1.reconnectAttempts = 0 := by
  decide

/-- C4 amended: on an authentication success message the handler transitions
the state to authenticated and emits `authenticated` but leaves the reconnect
attempt counter unchanged; the counter is reset to 0 by the transport open
handler when the connection (re)opens, before authentication completes. -/
theorem C4_auth_success_amended :
    (∀ c : Client,
        (handleAuthResponse c "authenticated").1.status = .authenticated ∧
        (handleAuthResponse c "authenticated").2 = [.authenticated] ∧
        (handleAuthResponse c "authenticated").1.reconnectAttempts = c.reconnectAttempts) ∧
    (∀ c : Client, (onOpen c).1.reconnectAttempts = 0 ∧ (onOpen c).1.status = .connected) := by
  constructor
  · intro c
    refine ⟨?_, ?_, ?_⟩ <;> simp [handleAuthResponse]
  · intro c
    exact ⟨rfl, rfl⟩

/-- C6 counterexample: `start` on an already-running service returns normally
(`Except.ok`) with the state unchanged — even when the supplied connection
outcome is a failure it is never consulted — so no error of any kind, in
particular no `AlreadyRunning`, is raised. -/
theorem C6_counterexample_start_when_running_is_noop :
    (start runningService ["EURUSD$GB"] (.error .connectFailed)).2 = .ok () ∧
    (start runningService ["EURUSD$GB"] (.error .connectFailed)).1 = runningService ∧
    ¬ (start runningService ["EURUSD$GB"] (.error .connectFailed)).2 = .error .connectFailed ∧
    ¬ (start runningService ["EURUSD$GB"] (.error .connectFailed)).2 = .error .authTimeout ∧
    ¬ (start runningService ["EURUSD$GB"] (.error .connectFailed)).2 = .error .authFailed := by
  refine ⟨rfl, rfl, ?_, ?_, ?_⟩ <;> (intro h; exact Except.noConfusion h)

/-- C6 amended: calling `start(symbols)` when the service is already started
is a warning no-op — it returns normally, raises no error, and changes no
state. -/
theorem C6_start_when_running_amended :
    ∀ (svc : Service) (symbols : List String) (io : Except StartError Unit),
      svc.isRunning = true → start svc symbols io = (svc, .ok ()) := by
  intro svc symbols io h
  simp [start, h]

/-- Witness for the amended C6 at a concrete running service. -/
theorem C6_start_when_running_amended_witness :
    runningService.isRunning = true ∧
    start runningService ["EURUSD$GB"] (.ok ()) = (runningService, .ok ()) :=
  ⟨rfl, C6_start_when_running_amended runningService ["EURUSD$GB"] (.ok ()) rfl⟩

/-- C7: `stop()` is idempotent — a second consecutive `stop()` emits no event
at all (in particular no second `stopped`), and `stop()` is a total function,
so no error is raised; on a running service a single `stop()` emits `stopped`
exactly once, clears the running flag and both history buffers, and
intentionally disconnects the client (`shouldReconnect` lowered, status
disconnected). -/
theorem C7_stop_idempotent :
    ∀ svc : Service,
      (stop (stop svc).1).2 = [] ∧
      (stop (stop svc).1).1 = (stop svc).1 ∧
      (svc.isRunning = true →
        (stop svc).2 = [.stopped] ∧
        (stop svc).1.isRunning = false ∧
        (stop svc).1.dataBuffer = [] ∧
        (stop svc).1.quoteBuffer = [] ∧
        (stop svc).1.client.shouldReconnect = false ∧
        (stop svc).1.client.status = .disconnected) := by
  intro svc
  refine ⟨?_, ?_, ?_⟩
  · rw [stop_not_running _ (stop_fst_isRunning svc)]
  · rw [stop_not_running _ (stop_fst_isRunning svc)]
  · intro h
    simp [stop, h, disconnect, stopHeartbeat]

/-- Witness for C7: one `stop()` on a concrete running service with populated
buffers emits `stopped` once; the immediately following `stop()` emits
nothing. -/
theorem C7_stop_idempotent_witness :
    runningSubscribedService.isRunning = true ∧
    (stop runningSubscribedService).2 = [.stopped] ∧
    (stop (stop runningSubscribedService).1).2 = [] :=
  ⟨rfl,
    ((C7_stop_idempotent runningSubscribedService).2.2 rfl).1,
    (C7_stop_idempotent runningSubscribedService).1⟩

/-- C5 at the failing input: on a running service whose client is in the
subscribed status (the normal steady state while running), `resubscribe`
replaces the subscription set but sends no subscribe frame — the client's
subscribe guard rejects every status except authenticated, so the request is
never re-issued over the live connection; the same call with the client still
in the authenticated status does send the frame, isolating the guard as the
culprit. -/
theorem C5_resubscribe_sends_nothing_while_subscribed :
    (resubscribe runningSubscribedService ["USDJPY$GB"]).2 = none ∧
    (resubscribe runningSubscribedService ["USDJPY$GB"]).1.subscribedSymbols = ["USDJPY$GB"] ∧
    (resubscribe runningAuthedService ["USDJPY$GB"]).2 =
      some (buildSubscribeMessage ["USDJPY$GB"]) ∧
    resubscribe stoppedSubscribedService ["USDJPY$GB"] = (stoppedSubscribedService, none) := by
  refine ⟨rfl, rfl, rfl, rfl⟩

/-- C8: for two consecutive same-symbol events — whose handling leaves them as
the last two buffer entries, as the third conjunct shows for the quote
pipeline at the configured capacity — the `significantPriceChange` emission
happens if and only if the absolute percentage change between the two prices
(quote last prices, respectively kline close prices) exceeds 0.1; in
particular `EURUSD$GB` prices 1.1000 then 1.1015 emit it and 1.1000 then
1.1005 do not. -/
theorem C8_significant_change_iff :
    (∀ (front : List QuoteData) (prev cur : QuoteData), prev.s = cur.s →
        ((processQuoteData (front ++ [prev, cur]) cur).isSome = true ↔
          (1 : ℚ) / 10 < |(cur.ld - prev.ld) / prev.ld * 100|)) ∧
    (∀ (front : List KlineData) (prev cur : KlineData), prev.s = cur.s →
        ((processKlineData (front ++ [prev, cur]) cur).isSome = true ↔
          (1 : ℚ) / 10 < |(cur.k.c - prev.k.c) / prev.k.c * 100|)) ∧
    (∀ (svc : Service) (prev cur : QuoteData), svc.maxBufferSize = 1000 →
        ∃ front : List QuoteData,
          (handleQuoteStep (handleQuoteStep svc prev).1 cur).1.quoteBuffer
              = front ++ [prev, cur] ∧
          (handleQuoteStep (handleQuoteStep svc prev).1 cur).2
              = processQuoteData (front ++ [prev, cur]) cur) ∧
    (handleQuoteStep (handleQuoteStep stoppedSubscribedService (eurQuote (11 / 10))).1
        (eurQuote (11015 / 10000))).2.isSome = true ∧
    (handleQuoteStep (handleQuoteStep stoppedSubscribedService (eurQuote (11 / 10))).1
        (eurQuote (11005 / 10000))).2.isSome = false := by
  have hiffQ : ∀ (front : List QuoteData) (prev cur : QuoteData), prev.s = cur.s →
      ((processQuoteData (front ++ [prev, cur]) cur).isSome = true ↔
        (1 : ℚ) / 10 < |(cur.ld - prev.ld) / prev.ld * 100|) := by
    intro front prev cur hs
    rw [processQuoteData_last_two, if_pos hs]
    by_cases hgt : (1 : ℚ) / 10 < |(cur.ld - prev.ld) / prev.ld * 100|
    · simp [hgt]
    · simp [hgt]
  refine ⟨hiffQ, ?_, ?_, ?_, ?_⟩
  · intro front prev cur hs
    rw [processKlineData_last_two, if_pos hs]
    by_cases hgt : (1 : ℚ) / 10 < |(cur.k.c - prev.k.c) / prev.k.c * 100|
    · simp [hgt]
    · simp [hgt]
  · intro svc prev cur hcap
    obtain ⟨front, hf⟩ :=
      pushBounded_ends_two svc.maxBufferSize (by omega) svc.quoteBuffer prev cur
    refine ⟨front, ?_, ?_⟩
    · show pushBounded svc.maxBufferSize (pushBounded svc.maxBufferSize svc.quoteBuffer prev) cur
          = front ++ [prev, cur]
      exact hf
    · show processQuoteData
          (pushBounded svc.maxBufferSize (pushBounded svc.maxBufferSize svc.quoteBuffer prev) cur)
          cur = processQuoteData (front ++ [prev, cur]) cur
      rw [hf]
  · have hstep : (handleQuoteStep (handleQuoteStep stoppedSubscribedService
        (eurQuote (11 / 10))).1 (eurQuote (11015 / 10000))).2
        = processQuoteData ([] ++ [eurQuote (11 / 10), eurQuote (11015 / 10000)])
            (eurQuote (11015 / 10000)) := by
      show processQuoteData
          (pushBounded 1000 (pushBounded 1000 [] (eurQuote (11 / 10))) (eurQuote (11015 / 10000)))
          (eurQuote (11015 / 10000)) = _
      norm_num [pushBounded]
    rw [hstep, (hiffQ [] (eurQuote (11 / 10)) (eurQuote (11015 / 10000)) rfl)]
    show (1 : ℚ) / 10 < |((11015 / 10000 : ℚ) - 11 / 10) / (11 / 10) * 100|
    rw [abs_of_pos (by norm_num)]
    norm_num
  · have hstep : (handleQuoteStep (handleQuoteStep stoppedSubscribedService
        (eurQuote (11 / 10))).1 (eurQuote (11005 / 10000))).2
        = processQuoteData ([] ++ [eurQuote (11 / 10), eurQuote (11005 / 10000)])
            (eurQuote (11005 / 10000)) := by
      show processQuoteData
          (pushBounded 1000 (pushBounded 1000 [] (eurQuote (11 / 10))) (eurQuote (11005 / 10000)))
          (eurQuote (11005 / 10000)) = _
      norm_num [pushBounded]
    have hnot : ¬ ((1 : ℚ) / 10
        < |((11005 / 10000 : ℚ) - 11 / 10) / (11 / 10) * 100|) := by
      rw [abs_of_pos (by norm_num)]
      norm_num
    rw [hstep]
    rw [Bool.eq_false_iff]
    intro hsome
    exact hnot
      ((hiffQ [] (eurQuote (11 / 10)) (eurQuote (11005 / 10000)) rfl).mp hsome)

/-- Witness for C8: the quote-side equivalence applied to the concrete pair of
consecutive `EURUSD$GB` quotes at 1.1000 and 1.1015. -/
theorem C8_significant_change_iff_witness :
    (eurQuote (11 / 10)).s = (eurQuote (11015 / 10000)).s ∧
    ((processQuoteData ([] ++ [eurQuote (11 / 10), eurQuote (11015 / 10000)])
        (eurQuote (11015 / 10000))).isSome = true ↔
      (1 : ℚ) / 10
        < |((eurQuote (11015 / 10000)).ld - (eurQuote (11 / 10)).ld)
            / (eurQuote (11 / 10)).ld * 100|) :=
  ⟨rfl, C8_significant_change_iff.1 [] (eurQuote (11 / 10)) (eurQuote (11015 / 10000)) rfl⟩

/-- C10: `getSubscribedSymbols` hands back a freshly allocated array: its
reference differs from the internal subscription array's reference, it holds
the same contents, and any caller mutation through the returned reference
leaves the internal array — and therefore the contents returned by every later
`getSubscribedSymbols` call — unchanged. -/
theorem C10_getSubscribedSymbols_fresh_copy :
    ∀ (st : SymbolStore) (internalRef : Nat), internalRef < st.next →
      (getSubscribedSymbols st internalRef).2 ≠ internalRef ∧
      (getSubscribedSymbols st internalRef).1.arrays (getSubscribedSymbols st internalRef).2
        = st.arrays internalRef ∧
      ∀ v : List String,
        (writeArray (getSubscribedSymbols st internalRef).1
            (getSubscribedSymbols st internalRef).2 v).arrays internalRef
          = st.arrays internalRef ∧
        (getSubscribedSymbols
            (writeArray (getSubscribedSymbols st internalRef).1
              (getSubscribedSymbols st internalRef).2 v) internalRef).1.arrays
          (getSubscribedSymbols
            (writeArray (getSubscribedSymbols st internalRef).1
              (getSubscribedSymbols st internalRef).2 v) internalRef).2
          = st.arrays internalRef := by
  intro st internalRef h
  have hne : internalRef ≠ st.next := by omega
  refine ⟨?_, ?_, ?_⟩
  · show st.next ≠ internalRef
    omega
  · show (if st.next = st.next then st.arrays internalRef else st.arrays st.next)
        = st.arrays internalRef
    rw [if_pos rfl]
  · intro v
    constructor
    · show (if internalRef = st.next then v
          else if internalRef = st.next then st.arrays internalRef else st.arrays internalRef)
        = st.arrays internalRef
      rw [if_neg hne, if_neg hne]
    · show (if st.next + 1 = st.next + 1 then
            (if internalRef = st.next then v
              else if internalRef = st.next then st.arrays internalRef
                else st.arrays internalRef)
          else _) = st.arrays internalRef
      rw [if_pos rfl, if_neg hne, if_neg hne]

/-- Witness for C10 at a concrete one-array store. -/
theorem C10_getSubscribedSymbols_fresh_copy_witness :
    (0 : Nat) < (⟨fun r => if r = 0 then ["EURUSD$GB"] else [], 1⟩ : SymbolStore).next ∧
    (getSubscribedSymbols ⟨fun r => if r = 0 then ["EURUSD$GB"] else [], 1⟩ 0).2 ≠ 0 :=
  ⟨Nat.zero_lt_one,
    (C10_getSubscribedSymbols_fresh_copy
      ⟨fun r => if r = 0 then ["EURUSD$GB"] else [], 1⟩ 0 Nat.zero_lt_one).1⟩

end Klink
